import Mathlib

/-!
# Verification of the sengine-workers drip pipeline

A shallow embedding of the background worker service (pre-queue scheduler,
outbound drip dispatcher, credits ledger, delivery reconciler, broker retry
wrapper, token-bucket rate limiter, Twilio phone formatting) together with
proofs and refutations of the behavioural claims made about it.

Conventions of the embedding:
* database tables are lists of row records; `find?` models `.first()`,
  `List.map` with a guarded update models `UPDATE ... WHERE`;
* timestamps are natural numbers (milliseconds since epoch);
* JavaScript `null`/`undefined` optionality is `Option`; JS falsiness of `0`
  and of the empty string is modelled explicitly where the code relies on it;
* the Twilio gateway is an oracle function passed as a parameter;
* generated tracking tokens (`b_ref`, `uuid`) are passed in as parameters so
  that handlers are deterministic functions of their inputs.
-/

namespace Sengine

/-! ## Phone normalization (services/sms/twilio.service.js) -/

/-- `phone.replace(/\D/g, '')`: keep only the ASCII digits. -/
def stripNonDigits (s : String) : String :=
  String.mk (s.data.filter Char.isDigit)

/-- `formatPhoneNumber` from twilio.service.js.  A `null`/`undefined`/empty
input is falsy and yields `null`; otherwise strip non-digits, prepend the
country code `1` when exactly 10 digits remain, and prepend `+` unless the
string already starts with `+`. -/
def formatPhoneNumber (phone : Option String) : Option String :=
  match phone with
  | none => none
  | some p =>
    if p = "" then none
    else
      let cleaned := stripNonDigits p
      let cleaned2 := if cleaned.length = 10 then String.mk ('1' :: cleaned.data) else cleaned
      some (if cleaned2.data.head? = some '+' then cleaned2 else String.mk ('+' :: cleaned2.data))

/-- Proof-side abbreviation for the digits-only core built by
`formatPhoneNumber`: the cleaned digit list with the country code prepended
when exactly 10 digits remain. -/
def fmtCore (l : List Char) : List Char :=
  if l.length = 10 then '1' :: l else l

/-! ## Data model

Row records for the tables touched by the workers.  Field names follow the
column names used in the queries.  Timestamps are milliseconds. -/

structure UserCreditsRow where
  user_id : Nat
  balance : Int
  total_spent : Int
deriving DecidableEq

structure CreditTxRow where
  user_id : Nat
  type : String
  amount : Int
  balance_after : Int
  description : String
  reference_type : Option String
  reference_id : Option Nat
deriving DecidableEq

structure ContactRow where
  id : Nat
  opted_out : Bool
  is_block : Bool
  deleted_at : Option Nat
  last_message : Option Nat
  updated_at : Nat
deriving DecidableEq

structure UserRow where
  id : Nat
  twilio_sid : Option String
  twilio_token : Option String
  messaging_status : Nat
deriving DecidableEq

structure ScheduledRow where
  id : Nat
  uid : Option String
  drip_contact_id : Option Nat
  user_id : Nat
  workspace_id : Nat
  contact_id : Nat
  drip_id : Option Nat
  campaign_id : Option Nat
  from_number : String
  to_number : String
  sid : Option Nat
  message : String
  media_url : Option String
  scheduled_at : Nat
  status : Nat
  queued_at : Option Nat
  sent_at : Option Nat
  error_message : Option String
  retry_count : Nat
  message_id : Option Nat
  msg_id : Option String
  updated_at : Nat
deriving DecidableEq

structure MessageRow where
  id : Nat
  uid : String
  sid : Option Nat
  from_number : String
  to_number : String
  message : String
  media_html : Option String
  status : String
  delivery_status : String
  msg_id : Option String
  user_id : Nat
  workspace_id : Nat
  contact_id : Nat
  b_ref : String
  is_read : Nat
  is_drip : Nat
  drip_id : Option Nat
  is_charged : Nat
  counter : Nat
  direction : String
  intent : Nat
  message_type : Nat
  created_at : Nat
  updated_at : Nat
deriving DecidableEq

structure DripContactRow where
  id : Nat
  status : Nat
  sent_at : Option Nat
  message_id : Option Nat
  b_ref : Option String
  error_message : Option String
  updated_at : Nat
deriving DecidableEq

/-- The database.  `nextMessageId` models the autoincrement id that the
`insert ... returning(*)` on `messages` hands back. -/
structure Db where
  scheduled_messages : List ScheduledRow
  messages : List MessageRow
  contacts : List ContactRow
  users : List UserRow
  user_credits : List UserCreditsRow
  credit_transactions : List CreditTxRow
  drip_contact : List DripContactRow
  nextMessageId : Nat
deriving DecidableEq

/-- `UPDATE ... SET u WHERE p`: rewrites every row matching `p`. -/
def updateWhere {α : Type} (p : α → Bool) (u : α → α) (l : List α) : List α :=
  l.map fun r => if p r then u r else r

/-- JS truthiness on an optional integer: `x || null` (`0` is falsy). -/
def jsTruthyNat : Option Nat → Option Nat
  | none => none
  | some 0 => none
  | some (n + 1) => some (n + 1)

/-- JS truthiness on an optional string: `x || null` (empty string is falsy). -/
def jsTruthyStr : Option String → Option String
  | none => none
  | some s => if s = "" then none else some s

/-- `x || dflt` for an optional string. -/
def jsOrStr (o : Option String) (dflt : String) : String :=
  match o with
  | none => dflt
  | some s => if s = "" then dflt else s

/-! ## Credits service (services/credits.service.js, bundled with
logger.service.js in this snapshot) -/

/-- Look up the `user_credits` row of a user. -/
def findCredits (db : Db) (userId : Nat) : Option UserCreditsRow :=
  db.user_credits.find? (fun c => c.user_id == userId)

/-- `hasEnoughCredits(userId, amount)`: non-transactional read; a falsy
user id or a missing credits row reads as not-enough. -/
def hasEnoughCredits (db : Db) (userId : Nat) (amount : Int) : Bool :=
  if userId = 0 then false
  else
    match findCredits db userId with
    | none => false
    | some credits => amount ≤ credits.balance

structure DeductOpts where
  description : String
  referenceType : Option String
  referenceId : Option Nat
deriving DecidableEq

structure DeductResult where
  balance : Int
  totalSpent : Int
  transaction : CreditTxRow
deriving DecidableEq

/-- The debit audit row written by a successful `deductCredits`. -/
def debitTx (userId : Nat) (amount : Int) (opts : DeductOpts)
    (credits : UserCreditsRow) : CreditTxRow :=
  { user_id := userId
    type := "debit"
    amount := -amount
    balance_after := credits.balance - amount
    description := opts.description
    reference_type := opts.referenceType
    reference_id := opts.referenceId }

/-- `deductCredits(userId, amount, options)`.  The transaction-with-rollback
of the source is modelled by returning the original `Db` on every error
path; on success the balance row is rewritten and one debit audit row is
appended to `credit_transactions`. -/
def deductCredits (userId : Nat) (amount : Int) (opts : DeductOpts) (db : Db) :
    Db × Except String DeductResult :=
  if userId = 0 then (db, Except.error "User ID is required")
  else if amount ≤ 0 then (db, Except.error "Valid credit amount is required")
  else
    match findCredits db userId with
    | none => (db, Except.error "User credits not found")
    | some credits =>
      if credits.balance < amount then (db, Except.error "Insufficient credits")
      else
        let newBalance := credits.balance - amount
        let newTotalSpent := credits.total_spent + amount
        let tx := debitTx userId amount opts credits
        let db1 :=
          { db with
              user_credits :=
                updateWhere (fun c => c.user_id == userId)
                  (fun c =>
                    { c with
                        balance := newBalance
                        total_spent := newTotalSpent })
                  db.user_credits
              credit_transactions := db.credit_transactions ++ [tx] }
        (db1, Except.ok { balance := newBalance, totalSpent := newTotalSpent, transaction := tx })

/-! ## Scheduled-message service (services/drip/scheduledMessage.service.js) -/

namespace SCHEDULED_MESSAGE_STATUS

def PENDING : Nat := 0

def QUEUED : Nat := 1

def SENDING : Nat := 2

def SENT : Nat := 3

def DELIVERED : Nat := 4

def FAILED : Nat := 5

def CANCELLED : Nat := 6

end SCHEDULED_MESSAGE_STATUS

/-- Ordering used by `orderBy(scheduled_at, asc)`. -/
def byScheduledAt (a b : ScheduledRow) : Prop :=
  a.scheduled_at ≤ b.scheduled_at

instance : DecidableRel byScheduledAt :=
  fun a b => inferInstanceAs (Decidable (a.scheduled_at ≤ b.scheduled_at))

instance : IsTotal ScheduledRow byScheduledAt :=
  ⟨fun a b => Nat.le_total a.scheduled_at b.scheduled_at⟩

instance : IsTrans ScheduledRow byScheduledAt :=
  ⟨fun _ _ _ h1 h2 => Nat.le_trans h1 h2⟩

/-- Config default `DRIP_PRE_QUEUE_MINUTES` (15) from config.js. -/
def PRE_QUEUE_MINUTES : Nat := 15

/-- Config default `DRIP_PRE_QUEUE_BATCH` (2000) from config.js. -/
def PRE_QUEUE_BATCH : Nat := 2000

/-- `getMessagesReadyForQueue(minutes, limit)`: select Pending rows whose
`scheduled_at` is at most `now + minutes`, ascending by `scheduled_at`,
limited.  The SQL ordering is modelled by a stable sort. -/
def getMessagesReadyForQueue (db : Db) (now : Nat) (minutes : Nat) (lim : Nat) :
    List ScheduledRow :=
  let futureTime := now + minutes * 60 * 1000
  ((db.scheduled_messages.filter
      (fun r => r.status == SCHEDULED_MESSAGE_STATUS.PENDING
        && decide (r.scheduled_at ≤ futureTime))).insertionSort byScheduledAt).take lim

/-- `markMessagesAsQueued(messageIds)`: `Pending → Queued` for the given
ids, gated on `status = Pending`, setting `queued_at`. -/
def markMessagesAsQueued (db : Db) (messageIds : List Nat) (now : Nat) : Db :=
  if messageIds.isEmpty then db
  else
    { db with
        scheduled_messages :=
          updateWhere
            (fun r => messageIds.contains r.id
              && r.status == SCHEDULED_MESSAGE_STATUS.PENDING)
            (fun r =>
              { r with
                  status := SCHEDULED_MESSAGE_STATUS.QUEUED
                  queued_at := some now
                  updated_at := now })
            db.scheduled_messages }

/-- `markMessageAsSent(scheduledMessageId, messageId, msgId)`. -/
def markMessageAsSent (db : Db) (scheduledMessageId : Nat) (messageId : Option Nat)
    (msgId : Option String) (now : Nat) : Db :=
  { db with
      scheduled_messages :=
        updateWhere
          (fun r => r.id == scheduledMessageId)
          (fun r =>
            { r with
                status := SCHEDULED_MESSAGE_STATUS.SENT
                sent_at := some now
                message_id := messageId
                msg_id := msgId
                updated_at := now })
          db.scheduled_messages }

/-- `markMessageAsFailed(scheduledMessageId, errorMessage)`. -/
def markMessageAsFailed (db : Db) (scheduledMessageId : Nat) (errorMessage : String)
    (now : Nat) : Db :=
  { db with
      scheduled_messages :=
        updateWhere
          (fun r => r.id == scheduledMessageId)
          (fun r =>
            { r with
                status := SCHEDULED_MESSAGE_STATUS.FAILED
                error_message := some errorMessage
                retry_count := r.retry_count + 1
                updated_at := now })
          db.scheduled_messages }

/-! ## Pre-queue worker (workers/preQueueWorker.js) -/

structure PushResult where
  queued : Nat
  failed : Nat
deriving DecidableEq

/-- `pushMessagesToQueue(messages)`.  `publishOk` is the broker oracle: the
boolean returned by the synchronous `channel.publish` (an exception while
publishing behaves like `false`: the id is not collected).  Ids of rows whose
publish returned `true` are collected and marked queued in one batch. -/
def pushMessagesToQueue (messages : List ScheduledRow) (publishOk : ScheduledRow → Bool)
    (connected : Bool) (db : Db) (now : Nat) : Db × PushResult :=
  if messages.isEmpty then (db, { queued := 0, failed := 0 })
  else if !connected then (db, { queued := 0, failed := messages.length })
  else
    let queuedIds := (messages.filter publishOk).map (fun m => m.id)
    let db1 := if queuedIds.isEmpty then db else markMessagesAsQueued db queuedIds now
    (db1, { queued := queuedIds.length, failed := messages.length - queuedIds.length })

/-! ## Outbound drip dispatcher (workers/messageConsumer.js) -/

def SMS_CREDIT_COST : Int := 1

/-- The broker payload built by the pre-queue worker for `drip.messages`. -/
structure DripPayload where
  scheduledMessageId : Nat
  dripContactId : Option Nat
  userId : Nat
  workspaceId : Nat
  contactId : Nat
  dripId : Option Nat
  campaignId : Option Nat
  fromNumber : String
  toNumber : String
  sid : Option Nat
  message : String
  mediaUrl : Option String
  scheduledAt : Nat
  queuedAt : Nat
deriving DecidableEq

/-- Payload construction in `pushMessagesToQueue`. -/
def toDripPayload (msg : ScheduledRow) (now : Nat) : DripPayload :=
  { scheduledMessageId := msg.id
    dripContactId := msg.drip_contact_id
    userId := msg.user_id
    workspaceId := msg.workspace_id
    contactId := msg.contact_id
    dripId := msg.drip_id
    campaignId := msg.campaign_id
    fromNumber := msg.from_number
    toNumber := msg.to_number
    sid := msg.sid
    message := msg.message
    mediaUrl := msg.media_url
    scheduledAt := msg.scheduled_at
    queuedAt := now }

structure SendRequest where
  toNumber : String
  fromNumber : String
  body : String
  mediaUrl : Option String
  statusCallback : Option String
  credentials : Option (String × String)
deriving DecidableEq

structure TwilioResult where
  success : Bool
  sid : Option String
  status : String
  errorCode : Option String
  errorMessage : Option String
deriving DecidableEq

/-- Tracking tokens generated per send (`generateBRef()` and `uuidv4()`),
passed in so the handler is a deterministic function. -/
structure TrackingGen where
  bRef : String
  uid : String
deriving DecidableEq

/-- Evaluation context of one handler run: gateway oracle, token generator,
clock, and `CONFIG.TWILIO.STATUS_CALLBACK_URL`. -/
structure ProcCtx where
  gw : SendRequest → TwilioResult
  gen : TrackingGen
  now : Nat
  statusCallbackBase : Option String

structure ProcResult where
  success : Bool
  error : Option String
  messageId : Option Nat
  twilioSid : Option String
deriving DecidableEq

structure ProcOutcome where
  db : Db
  result : ProcResult
  gatewayCalls : List SendRequest
  twilio : Option TwilioResult
deriving DecidableEq

/-- `if (msgData.dripContactId) update drip_contact ...` (truthy check). -/
def updateDripContactIfPresent (db : Db) (dripContactId : Option Nat)
    (u : DripContactRow → DripContactRow) : Db :=
  match jsTruthyNat dripContactId with
  | none => db
  | some dcid =>
    { db with drip_contact := updateWhere (fun d => d.id == dcid) u db.drip_contact }

/-- Common shape of the early-failure returns of `processMessage` that touch
only the scheduled row. -/
def markFailedOutcome (db : Db) (msgData : DripPayload) (reason : String)
    (resultError : String) (now : Nat) : ProcOutcome :=
  { db := markMessageAsFailed db msgData.scheduledMessageId reason now
    result :=
      { success := false
        error := some resultError
        messageId := none
        twilioSid := none }
    gatewayCalls := []
    twilio := none }

/-- Failure outcome that also writes `drip_contact` to `FAILED (3)` with the
error message (the insufficient-credits, deduct-error, and Twilio-failure
branches). -/
def markFailedWithDrip (db : Db) (msgData : DripPayload) (errMsg : String)
    (now : Nat) (twilio : Option TwilioResult) (calls : List SendRequest) : ProcOutcome :=
  let db1 := markMessageAsFailed db msgData.scheduledMessageId errMsg now
  let db2 := updateDripContactIfPresent db1 msgData.dripContactId
    (fun d =>
      { d with
          status := 3
          error_message := some errMsg
          updated_at := now })
  { db := db2
    result :=
      { success := false
        error := some errMsg
        messageId := none
        twilioSid := none }
    gatewayCalls := calls
    twilio := twilio }

/-- The `messages` row inserted on Twilio success. -/
def newDripMessageRow (msgData : DripPayload) (ctx : ProcCtx) (newId : Nat)
    (twilioResult : TwilioResult) : MessageRow :=
  { id := newId
    uid := ctx.gen.uid
    sid := msgData.sid
    from_number := stripNonDigits msgData.fromNumber
    to_number := stripNonDigits msgData.toNumber
    message := msgData.message
    media_html := jsTruthyStr msgData.mediaUrl
    status := "1"
    delivery_status := "sent"
    msg_id := twilioResult.sid
    user_id := msgData.userId
    workspace_id := msgData.workspaceId
    contact_id := msgData.contactId
    b_ref := ctx.gen.bRef
    is_read := 1
    is_drip := 1
    drip_id := jsTruthyNat msgData.dripId
    is_charged := 0
    counter := 0
    direction := "outbound"
    intent := 0
    message_type := match jsTruthyStr msgData.mediaUrl with
      | some _ => 2
      | none => 0
    created_at := ctx.now
    updated_at := ctx.now }

/-- The Twilio request built by `processMessage`: status-callback URL from
config plus `b_ref`, tenant credentials when both are present (truthy). -/
def dripSendRequest (msgData : DripPayload) (ctx : ProcCtx) (user : UserRow) : SendRequest :=
  { toNumber := msgData.toNumber
    fromNumber := msgData.fromNumber
    body := msgData.message
    mediaUrl := jsTruthyStr msgData.mediaUrl
    statusCallback :=
      match ctx.statusCallbackBase with
      | none => none
      | some base => if base = "" then none else some (base ++ "?b_ref=" ++ ctx.gen.bRef)
    credentials :=
      match user.twilio_sid, user.twilio_token with
      | some s, some t => if s = "" || t = "" then none else some (s, t)
      | _, _ => none }

/-- The Twilio-success write-back of `processMessage`: insert the new
`messages` row, mark the scheduled row Sent, mark the DripContact Sent, and
touch the contact.  `db1` is the post-deduction database. -/
def successOutcome (msgData : DripPayload) (ctx : ProcCtx) (req : SendRequest)
    (twilioResult : TwilioResult) (db1 : Db) : ProcOutcome :=
  let newId := db1.nextMessageId
  let db2 :=
    { db1 with
        messages := db1.messages ++ [newDripMessageRow msgData ctx newId twilioResult]
        nextMessageId := newId + 1 }
  let db3 := markMessageAsSent db2 msgData.scheduledMessageId (some newId)
    twilioResult.sid ctx.now
  let db4 := updateDripContactIfPresent db3 msgData.dripContactId
    (fun d =>
      { d with
          status := 1
          sent_at := some ctx.now
          message_id := some newId
          b_ref := some ctx.gen.bRef
          updated_at := ctx.now })
  let db5 :=
    { db4 with
        contacts :=
          updateWhere (fun c => c.id == msgData.contactId)
            (fun c =>
              { c with
                  last_message := some ctx.now
                  updated_at := ctx.now })
            db4.contacts }
  { db := db5
    result :=
      { success := true
        error := none
        messageId := some newId
        twilioSid := twilioResult.sid }
    gatewayCalls := [req]
    twilio := some twilioResult }

/-- The gateway call and its two write-backs (the tail of `processMessage`
after a successful deduction). -/
def sendAndRecord (msgData : DripPayload) (ctx : ProcCtx) (user : UserRow) (db1 : Db) :
    ProcOutcome :=
  let req := dripSendRequest msgData ctx user
  let twilioResult := ctx.gw req
  if twilioResult.success then
    successOutcome msgData ctx req twilioResult db1
  else
    markFailedWithDrip db1 msgData (jsOrStr twilioResult.errorMessage "Twilio send failed")
      ctx.now (some twilioResult) [req]

/-- `processMessage(msgData)` of workers/messageConsumer.js, step for step:
contact validity, user validity, credits check, credit deduction, then the
Twilio send (`sendAndRecord`).  The rate-limit sleep affects only timing and
is not part of the state transition.  Note that the handler performs no
duplicate/idempotency check and no refund. -/
def processMessage (msgData : DripPayload) (ctx : ProcCtx) (db : Db) : ProcOutcome :=
  match db.contacts.find? (fun c => c.id == msgData.contactId && c.deleted_at.isNone) with
  | none => markFailedOutcome db msgData "Contact not found or deleted" "Contact not found" ctx.now
  | some contact =>
    if contact.opted_out || contact.is_block then
      markFailedOutcome db msgData "Contact opted out or blocked" "Contact opted out" ctx.now
    else
      match db.users.find? (fun u => u.id == msgData.userId) with
      | none => markFailedOutcome db msgData "User not found" "User not found" ctx.now
      | some user =>
        if user.messaging_status != 1 then
          markFailedOutcome db msgData "User messaging disabled" "Messaging disabled" ctx.now
        else if !(hasEnoughCredits db msgData.userId SMS_CREDIT_COST) then
          markFailedWithDrip db msgData "Insufficient credits" ctx.now none []
        else
          match deductCredits msgData.userId SMS_CREDIT_COST
              { description := "Drip SMS sent to " ++ msgData.toNumber
                referenceType := some "drip_sms"
                referenceId := jsTruthyNat msgData.dripId } db with
          | (_, Except.error creditErr) =>
            markFailedWithDrip db msgData (jsOrStr (some creditErr) "Failed to deduct credits")
              ctx.now none []
          | (db1, Except.ok _) => sendAndRecord msgData ctx user db1

structure HandlerOutcome where
  ack : Bool
  requeue : Bool
  outcome : Option ProcOutcome
deriving DecidableEq

/-- `messageHandler(msg)`: a parse failure is nacked without requeue; any
parsed payload runs `processMessage` and is then acked unconditionally. -/
def messageHandler (parsed : Option DripPayload) (ctx : ProcCtx) (db : Db) :
    HandlerOutcome :=
  match parsed with
  | none => { ack := false, requeue := false, outcome := none }
  | some msgData =>
    { ack := true, requeue := false, outcome := some (processMessage msgData ctx db) }

/-! ## Delivery reconciler (workers/statusWorker.js and
workers/deliveryReportWorker.js define identical STATUS_MAP and
updateDeliveryStatus) -/

/-- A value bound into the knex `update` object. -/
inductive JsVal where
  | str (s : String)
  | undef
deriving DecidableEq

/-- The provider-status table. -/
def STATUS_MAP (s : String) : Option (String × String) :=
  if s = "queued" then some ("0", "queued")
  else if s = "sending" then some ("1", "sending")
  else if s = "sent" then some ("1", "sent")
  else if s = "delivered" then some ("2", "delivered")
  else if s = "undelivered" then some ("4", "undelivered")
  else if s = "failed" then some ("3", "failed")
  else if s = "read" then some ("2", "read")
  else none

/-- The columns selected by `updateDeliveryStatus` when it looks the message
up: `id, user_id, contact_id, workspace_id, delivery_status`.  The coarse
`status` column is NOT selected. -/
structure ProjectedMessage where
  id : Nat
  user_id : Nat
  contact_id : Nat
  workspace_id : Nat
  delivery_status : String
deriving DecidableEq

def projectMessage (m : MessageRow) : ProjectedMessage :=
  { id := m.id
    user_id := m.user_id
    contact_id := m.contact_id
    workspace_id := m.workspace_id
    delivery_status := m.delivery_status }

structure UpdResult where
  success : Bool
  error : Option String
deriving DecidableEq

/-- `updateDeliveryStatus(bRef, status, messageSid)`.  For a status outside
`STATUS_MAP` the code falls back to `{ status: message.status, ... }`, but
`status` is absent from the select list, so the bound value is `undefined`;
knex then throws `Undefined binding(s) detected when compiling UPDATE` and
that error is caught and returned, with no row written. -/
def updateDeliveryStatus (db : Db) (bRef : Option String) (status : String)
    (messageSid : Option String) (now : Nat) : Db × UpdResult :=
  match db.messages.find? (fun m =>
      (match bRef with | some b => m.b_ref == b | none => false)
      || (match messageSid with | some sid => m.msg_id == some sid | none => false)) with
  | none => (db, { success := false, error := some "Message not found" })
  | some found =>
    let message := projectMessage found
    let statusData : JsVal × String :=
      match STATUS_MAP status with
      | some (c, t) => (JsVal.str c, t)
      | none => (JsVal.undef, status)
    match statusData.1 with
    | JsVal.undef =>
      (db, { success := false
             error := some "Undefined binding detected when compiling UPDATE" })
    | JsVal.str coarse =>
      let db1 :=
        { db with
            messages :=
              updateWhere (fun m => m.id == message.id)
                (fun m =>
                  { m with
                      status := coarse
                      delivery_status := statusData.2
                      msg_id := match messageSid with
                        | some sid => some sid
                        | none => m.msg_id
                      updated_at := now })
                db.messages }
      (db1, { success := true, error := none })

/-! ## Broker consume wrapper (config/rabbitmq.js, `consume`) -/

/-- A broker message as redelivered to the wrapper; only the
`x-retry-count` header matters here. -/
structure BrokerMsg where
  retryHeader : Option Nat
deriving DecidableEq

inductive NackDecision where
  | requeue
  | deadLetter
deriving DecidableEq

/-- The error branch of `consume`: read `x-retry-count` (default 0), add 1;
at 3 or more reject to the DLX, otherwise nack with requeue. -/
def consumeOnError (msg : BrokerMsg) : NackDecision :=
  let retryCount := (match msg.retryHeader with | some n => n | none => 0) + 1
  if 3 ≤ retryCount then NackDecision.deadLetter else NackDecision.requeue

inductive MsgLoc where
  | queue (m : BrokerMsg)
  | dlx (m : BrokerMsg)
deriving DecidableEq

/-- One failed delivery.  `nack(msg, false, true)` returns the message to
the queue with its headers unchanged (the broker does not rewrite custom
headers on requeue); `nack(msg, false, false)` dead-letters it. -/
def failStep : MsgLoc → MsgLoc
  | MsgLoc.queue m =>
    match consumeOnError m with
    | NackDecision.requeue => MsgLoc.queue m
    | NackDecision.deadLetter => MsgLoc.dlx m
  | MsgLoc.dlx m => MsgLoc.dlx m

/-- Where the message is after `n` consecutive failing deliveries. -/
def afterFailedAttempts (m : BrokerMsg) (n : Nat) : MsgLoc :=
  failStep^[n] (MsgLoc.queue m)

/-! ## Token-bucket rate limiter (workers/outboundMessageWorker.js,
`class RateLimiter`) -/

structure RateLimiter where
  maxTokens : ℚ
  refillRate : ℚ
  tokens : ℚ
  lastRefill : ℚ
deriving DecidableEq

/-- `refill()`: continuous refill since `lastRefill`, capped at burst. -/
def RateLimiter.refill (now : ℚ) (s : RateLimiter) : RateLimiter :=
  let elapsed := (now - s.lastRefill) / 1000
  { s with
      tokens := min s.maxTokens (s.tokens + elapsed * s.refillRate)
      lastRefill := now }

/-- `tryAcquire()`: refill, then take a token if at least one is present. -/
def RateLimiter.tryAcquire (now : ℚ) (s : RateLimiter) : RateLimiter × Bool :=
  let s1 := s.refill now
  if 1 ≤ s1.tokens then ({ s1 with tokens := s1.tokens - 1 }, true) else (s1, false)

inductive AcquireRes where
  | done
  | scheduled (fireTime : ℚ)
deriving DecidableEq

/-- The synchronous part of `acquire()`: an immediate grab, or the
computation of the `setTimeout` delay from the current token deficit. -/
def RateLimiter.acquireStart (t : ℚ) (s : RateLimiter) : RateLimiter × AcquireRes :=
  match s.tryAcquire t with
  | (s1, true) => (s1, AcquireRes.done)
  | (s1, false) =>
    let tokensNeeded := 1 - s1.tokens
    let waitTime : ℤ := ⌈tokensNeeded / s1.refillRate * 1000⌉
    (s1, AcquireRes.scheduled (t + waitTime))

/-- The `setTimeout` callback of `acquire()`: refill, then decrement and
resolve unconditionally (no re-check that a token is actually available). -/
def RateLimiter.timerFire (t : ℚ) (s : RateLimiter) : RateLimiter × ℚ :=
  let s1 := s.refill t
  ({ s1 with tokens := s1.tokens - 1 }, t)

/-- `n` `acquire()` calls issued in one synchronous burst at time 0:
returns the state, the completion times of the immediate grabs, and the
scheduled timer fire times of the blocked callers. -/
def startCalls : Nat → RateLimiter → RateLimiter × List ℚ × List ℚ
  | 0, s => (s, [], [])
  | n + 1, s =>
    match s.acquireStart 0 with
    | (s1, AcquireRes.done) =>
      match startCalls n s1 with
      | (s2, comps, pend) => (s2, 0 :: comps, pend)
    | (s1, AcquireRes.scheduled ft) =>
      match startCalls n s1 with
      | (s2, comps, pend) => (s2, comps, ft :: pend)

/-- The pending timers firing at their scheduled times, in scheduling
order (the event loop runs equal-deadline timers in creation order). -/
def fireAll : List ℚ → RateLimiter → RateLimiter × List ℚ
  | [], s => (s, [])
  | t :: rest, s =>
    match RateLimiter.timerFire t s with
    | (s1, c) =>
      match fireAll rest s1 with
      | (s2, cs) => (s2, c :: cs)

/-- Full simulation of a synchronous burst of `n` concurrent `acquire()`
calls at time 0: final state and the list of completion times (ms). -/
def simulateBurst (n : Nat) (s : RateLimiter) : RateLimiter × List ℚ :=
  match startCalls n s with
  | (s1, comps, pend) =>
    match fireAll pend s1 with
    | (s2, comps2) => (s2, comps ++ comps2)

/-! ## Observation helpers -/

/-- Status of the scheduled row with the given id, if present. -/
def scheduledStatus (db : Db) (id : Nat) : Option Nat :=
  (db.scheduled_messages.find? (fun r => r.id == id)).map (fun r => r.status)

/-- Error message of the scheduled row with the given id, if present. -/
def scheduledError (db : Db) (id : Nat) : Option (Option String) :=
  (db.scheduled_messages.find? (fun r => r.id == id)).map (fun r => r.error_message)

/-- `queued_at` of the scheduled row with the given id, if present. -/
def scheduledQueuedAt (db : Db) (id : Nat) : Option (Option Nat) :=
  (db.scheduled_messages.find? (fun r => r.id == id)).map (fun r => r.queued_at)

/-- Status of the drip_contact row with the given id, if present. -/
def dripStatus (db : Db) (id : Nat) : Option Nat :=
  (db.drip_contact.find? (fun d => d.id == id)).map (fun d => d.status)

/-- Credit balance of a user, if a credits row exists. -/
def creditBalance (db : Db) (userId : Nat) : Option Int :=
  (findCredits db userId).map (fun c => c.balance)

/-! ## Concrete fixtures used by the evaluation theorems -/

def emptyDb : Db :=
  { scheduled_messages := []
    messages := []
    contacts := []
    users := []
    user_credits := []
    credit_transactions := []
    drip_contact := []
    nextMessageId := 100 }

def contact3 : ContactRow :=
  { id := 3
    opted_out := false
    is_block := false
    deleted_at := none
    last_message := none
    updated_at := 0 }

def contact4opted : ContactRow :=
  { id := 4
    opted_out := true
    is_block := false
    deleted_at := none
    last_message := none
    updated_at := 0 }

def user7 : UserRow :=
  { id := 7, twilio_sid := none, twilio_token := none, messaging_status := 1 }

def creditsRow7 : UserCreditsRow :=
  { user_id := 7, balance := 5, total_spent := 10 }

def sched1 : ScheduledRow :=
  { id := 1
    uid := some "u-1"
    drip_contact_id := some 42
    user_id := 7
    workspace_id := 1
    contact_id := 3
    drip_id := some 9
    campaign_id := some 2
    from_number := "+15550001111"
    to_number := "+15552223333"
    sid := some 5
    message := "hi"
    media_url := none
    scheduled_at := 1000
    status := 0
    queued_at := none
    sent_at := none
    error_message := none
    retry_count := 0
    message_id := none
    msg_id := none
    updated_at := 0 }

/-- A row already cancelled (status 6) before the pre-queue cycle. -/
def sched2cancelled : ScheduledRow :=
  { sched1 with id := 2, status := 6 }

/-- A scheduled row whose contact (id 4) has opted out. -/
def sched3opted : ScheduledRow :=
  { sched1 with id := 30, contact_id := 4 }

def drip42 : DripContactRow :=
  { id := 42
    status := 0
    sent_at := none
    message_id := none
    b_ref := none
    error_message := none
    updated_at := 0 }

def baseDb : Db :=
  { emptyDb with
      scheduled_messages := [sched1, sched2cancelled, sched3opted]
      contacts := [contact3, contact4opted]
      users := [user7]
      user_credits := [creditsRow7]
      drip_contact := [drip42] }

def payload1 : DripPayload := toDripPayload sched1 500

def payload3 : DripPayload := toDripPayload sched3opted 500

def gwOk : SendRequest → TwilioResult := fun _ =>
  { success := true
    sid := some "SM1"
    status := "queued"
    errorCode := none
    errorMessage := none }

def gwFail : SendRequest → TwilioResult := fun _ =>
  { success := false
    sid := none
    status := "failed"
    errorCode := some "21610"
    errorMessage := some "Unsubscribed recipient" }

def ctxOk : ProcCtx :=
  { gw := gwOk
    gen := { bRef := "DM-1", uid := "uuid-1" }
    now := 2000
    statusCallbackBase := none }

def ctxOk2 : ProcCtx :=
  { gw := gwOk
    gen := { bRef := "DM-2", uid := "uuid-2" }
    now := 3000
    statusCallbackBase := none }

def ctxFail : ProcCtx :=
  { gw := gwFail
    gen := { bRef := "DM-1", uid := "uuid-1" }
    now := 2000
    statusCallbackBase := none }

/-- A message row as written by an earlier outbound send, for the delivery
reconciler evaluations. -/
def msg9 : MessageRow :=
  { id := 9
    uid := "uuid-9"
    sid := some 5
    from_number := "15550001111"
    to_number := "15552223333"
    message := "hi"
    media_html := none
    status := "1"
    delivery_status := "sent"
    msg_id := some "SM9"
    user_id := 7
    workspace_id := 1
    contact_id := 3
    b_ref := "DM-1"
    is_read := 1
    is_drip := 1
    drip_id := some 9
    is_charged := 0
    counter := 0
    direction := "outbound"
    intent := 0
    message_type := 0
    created_at := 0
    updated_at := 0 }

def dbMsg : Db := { emptyDb with messages := [msg9] }

end Sengine

namespace Sengine

/-! ### Supporting lemmas for phone normalization -/

theorem fmtCore_digits {l : List Char} (h : ∀ c ∈ l, c.isDigit = true) :
    ∀ c ∈ fmtCore l, c.isDigit = true := by
  intro c hc
  unfold fmtCore at hc
  split at hc
  · rcases List.mem_cons.mp hc with h1 | h1
    · subst h1; decide
    · exact h c h1
  · exact h c hc

theorem fmtCore_length_ne (l : List Char) : (fmtCore l).length ≠ 10 := by
  unfold fmtCore
  split
  · simp_all
  · assumption

theorem fmtCore_of_length_ne {l : List Char} (h : l.length ≠ 10) : fmtCore l = l :=
  if_neg h

theorem head?_ne_plus {l : List Char} (h : ∀ c ∈ l, c.isDigit = true) :
    l.head? ≠ some '+' := by
  cases l with
  | nil => simp
  | cons a t =>
    intro hc
    have ha : a = '+' := by simpa using hc
    have := h a (List.mem_cons_self a t)
    rw [ha] at this
    simp at this

theorem filter_eq_self_digits {l : List Char} (h : ∀ c ∈ l, c.isDigit = true) :
    l.filter Char.isDigit = l :=
  List.filter_eq_self.mpr h

/-- Closed form of `formatPhoneNumber` on a non-empty string. -/
theorem formatPhoneNumber_some (s : String) (hs : ¬ s = "") :
    formatPhoneNumber (some s) =
      some (String.mk ('+' :: fmtCore (s.data.filter Char.isDigit))) := by
  have hdig : ∀ c ∈ s.data.filter Char.isDigit, c.isDigit = true :=
    fun c hc => (List.mem_filter.mp hc).2
  simp only [formatPhoneNumber, if_neg hs]
  have h2 : (if (stripNonDigits s).length = 10
        then String.mk ('1' :: (stripNonDigits s).data)
        else stripNonDigits s) = String.mk (fmtCore (s.data.filter Char.isDigit)) := by
    show (if (s.data.filter Char.isDigit).length = 10 then _ else _) = _
    unfold fmtCore
    split
    · rfl
    · rfl
  rw [h2]
  rw [if_neg (head?_ne_plus (fmtCore_digits hdig))]

/-- C10: phone normalization is idempotent:
`formatPhoneNumber (formatPhoneNumber p) = formatPhoneNumber p`. -/
theorem formatPhoneNumber_idem (p : Option String) :
    formatPhoneNumber (formatPhoneNumber p) = formatPhoneNumber p := by
  match p with
  | none => rfl
  | some s =>
    by_cases hs : s = ""
    · subst hs
      simp [formatPhoneNumber]
    · rw [formatPhoneNumber_some s hs]
      have hld : ∀ c ∈ s.data.filter Char.isDigit, c.isDigit = true :=
        fun c hc => (List.mem_filter.mp hc).2
      have hne : ¬ (String.mk ('+' :: fmtCore (s.data.filter Char.isDigit)) = "") := by
        intro h
        have hdata := congrArg String.data h
        simp at hdata
      rw [formatPhoneNumber_some _ hne]
      have hfil : ('+' :: fmtCore (s.data.filter Char.isDigit)).filter Char.isDigit
          = fmtCore (s.data.filter Char.isDigit) := by
        rw [List.filter_cons]
        have : ('+').isDigit = false := by decide
        rw [this]
        simp only [Bool.false_eq_true, if_false]
        exact filter_eq_self_digits (fmtCore_digits hld)
      show some (String.mk ('+' ::
        fmtCore (('+' :: fmtCore (s.data.filter Char.isDigit)).filter Char.isDigit))) = _
      rw [hfil, fmtCore_of_length_ne (fmtCore_length_ne _)]

/-! ### Generic lemmas about the UPDATE model -/

/-- An `UPDATE` whose rewrite preserves the lookup key commutes with
`find?` on that key. -/
theorem find?_updateWhere {α : Type} (p : α → Bool) (u : α → α) (l : List α)
    (hpu : ∀ r, p r = true → p (u r) = true) :
    (updateWhere p u l).find? p = (l.find? p).map u := by
  induction l with
  | nil => rfl
  | cons a l ih =>
    by_cases h : p a = true
    · simp [updateWhere, List.find?_cons, h, hpu a h]
    · simp only [updateWhere, List.map_cons] at ih ⊢
      rw [if_neg (by simp [h])]
      rw [List.find?_cons_of_neg _ (by simp [h]), List.find?_cons_of_neg _ (by simp [h]), ih]

/-! ### Write-back lemmas for the scheduled-message service -/

theorem scheduledStatus_markFailed (db : Db) (id : Nat) (err : String) (now : Nat) :
    scheduledStatus (markMessageAsFailed db id err now) id =
      (scheduledStatus db id).map (fun _ => SCHEDULED_MESSAGE_STATUS.FAILED) := by
  simp only [scheduledStatus, markMessageAsFailed]
  rw [find?_updateWhere (fun r => r.id == id)
      (fun r =>
        { r with
            status := SCHEDULED_MESSAGE_STATUS.FAILED
            error_message := some err
            retry_count := r.retry_count + 1
            updated_at := now })
      db.scheduled_messages (fun _ h => h)]
  rw [Option.map_map, Option.map_map]
  rfl

theorem scheduledError_markFailed (db : Db) (id : Nat) (err : String) (now : Nat) :
    scheduledError (markMessageAsFailed db id err now) id =
      (scheduledError db id).map (fun _ => some err) := by
  simp only [scheduledError, markMessageAsFailed]
  rw [find?_updateWhere (fun r => r.id == id)
      (fun r =>
        { r with
            status := SCHEDULED_MESSAGE_STATUS.FAILED
            error_message := some err
            retry_count := r.retry_count + 1
            updated_at := now })
      db.scheduled_messages (fun _ h => h)]
  rw [Option.map_map, Option.map_map]
  rfl

theorem scheduledStatus_markSent (db : Db) (id : Nat) (messageId : Option Nat)
    (msgId : Option String) (now : Nat) :
    scheduledStatus (markMessageAsSent db id messageId msgId now) id =
      (scheduledStatus db id).map (fun _ => SCHEDULED_MESSAGE_STATUS.SENT) := by
  simp only [scheduledStatus, markMessageAsSent]
  rw [find?_updateWhere (fun r => r.id == id)
      (fun r =>
        { r with
            status := SCHEDULED_MESSAGE_STATUS.SENT
            sent_at := some now
            message_id := messageId
            msg_id := msgId
            updated_at := now })
      db.scheduled_messages (fun _ h => h)]
  rw [Option.map_map, Option.map_map]
  rfl

theorem dripStatus_updateIfPresent (db : Db) (dcid : Nat) (rest : Option Nat)
    (u : DripContactRow → DripContactRow) (hid : ∀ d, (u d).id = d.id)
    (hst : ∀ d, (u d).status = 3) (h : jsTruthyNat rest = some dcid) :
    dripStatus (updateDripContactIfPresent db rest u) dcid =
      (dripStatus db dcid).map (fun _ => 3) := by
  simp only [dripStatus, updateDripContactIfPresent, h]
  rw [find?_updateWhere _ _ _ (fun d hd => by
    have := hid d
    simp only [beq_iff_eq] at hd ⊢
    rw [this, hd])]
  cases db.drip_contact.find? (fun d => d.id == dcid) with
  | none => rfl
  | some d => simp [hst d]

/-! ### C5: the credit ledger debit -/

/-- C5: for a user with a credits row, `deductCredits` raises the
insufficient-credits error exactly when the balance is below the (positive)
requested amount; every error leaves the database unchanged (rollback); on
success the balance drops by the amount, `total_spent` rises by the amount,
and exactly one debit audit row whose `balance_after` is the new balance is
appended. -/
theorem deductCredits_correct (db : Db) (userId : Nat) (amount : Int)
    (opts : DeductOpts) (c : UserCreditsRow) (hc : findCredits db userId = some c)
    (hu : userId ≠ 0) (ha : 0 < amount) :
    (((deductCredits userId amount opts db).2 = Except.error "Insufficient credits")
        ↔ c.balance < amount) ∧
    (∀ e, (deductCredits userId amount opts db).2 = Except.error e →
        (deductCredits userId amount opts db).1 = db) ∧
    (amount ≤ c.balance →
        findCredits (deductCredits userId amount opts db).1 userId =
          some { c with balance := c.balance - amount,
                        total_spent := c.total_spent + amount } ∧
        (deductCredits userId amount opts db).1.credit_transactions =
          db.credit_transactions ++ [debitTx userId amount opts c]) := by
  have hnotle : ¬ amount ≤ 0 := not_le.mpr ha
  simp only [deductCredits, if_neg hu, if_neg hnotle, hc]
  by_cases hb : c.balance < amount
  · simp only [if_pos hb]
    refine ⟨by simp [hb], ?_, fun hle => absurd hb (not_lt.mpr hle)⟩
    intro e he
    trivial
  · simp only [if_neg hb]
    refine ⟨by simp [hb], ?_, ?_⟩
    · intro e he
      simp at he
    · intro _
      constructor
      · simp only [findCredits]
        rw [find?_updateWhere (fun x => x.user_id == userId)
            (fun x =>
              { x with
                  balance := c.balance - amount
                  total_spent := c.total_spent + amount })
            db.user_credits (fun _ h => h)]
        rw [show db.user_credits.find? (fun x => x.user_id == userId) = some c from hc]
        rfl
      · trivial

/-- Witness for C5 at a concrete input: user 7 with balance 5 is debited 1,
leaving balance 4 and total_spent 11. -/
theorem deductCredits_correct_witness :
    findCredits
      (deductCredits 7 1
        { description := "d", referenceType := some "drip_sms", referenceId := some 9 }
        baseDb).1 7 = some { user_id := 7, balance := 4, total_spent := 11 } := by
  have h := deductCredits_correct baseDb 7 1
    { description := "d", referenceType := some "drip_sms", referenceId := some 9 }
    creditsRow7 (by rfl) (by decide) (by decide)
  have h2 := (h.2.2 (by decide)).1
  rw [h2]
  rfl

/-! ### C4: the pre-queue selection -/

/-- C4: the pre-queue selection with the default 15-minute window and
2000-row batch returns only Pending rows due within `now + 15 min`
(inclusive, so a row scheduled exactly at `now` is eligible), sorted by
`scheduled_at` ascending, at most 2000 of them; and whenever at most 2000
rows are eligible it returns all of them, in particular every Pending row
with `scheduled_at = now`. -/
theorem getMessagesReady_correct (db : Db) (now : Nat) :
    (∀ r ∈ getMessagesReadyForQueue db now PRE_QUEUE_MINUTES PRE_QUEUE_BATCH,
        r ∈ db.scheduled_messages ∧ r.status = SCHEDULED_MESSAGE_STATUS.PENDING ∧
        r.scheduled_at ≤ now + 15 * 60 * 1000) ∧
    List.Sorted byScheduledAt (getMessagesReadyForQueue db now PRE_QUEUE_MINUTES PRE_QUEUE_BATCH) ∧
    (getMessagesReadyForQueue db now PRE_QUEUE_MINUTES PRE_QUEUE_BATCH).length ≤ 2000 ∧
    (db.scheduled_messages.countP
        (fun x => x.status == SCHEDULED_MESSAGE_STATUS.PENDING
          && decide (x.scheduled_at ≤ now + 15 * 60 * 1000)) ≤ 2000 →
      ∀ r ∈ db.scheduled_messages,
        r.status = SCHEDULED_MESSAGE_STATUS.PENDING →
        r.scheduled_at ≤ now + 15 * 60 * 1000 →
        r ∈ getMessagesReadyForQueue db now PRE_QUEUE_MINUTES PRE_QUEUE_BATCH) ∧
    (db.scheduled_messages.countP
        (fun x => x.status == SCHEDULED_MESSAGE_STATUS.PENDING
          && decide (x.scheduled_at ≤ now + 15 * 60 * 1000)) ≤ 2000 →
      ∀ r ∈ db.scheduled_messages,
        r.status = SCHEDULED_MESSAGE_STATUS.PENDING →
        r.scheduled_at = now →
        r ∈ getMessagesReadyForQueue db now PRE_QUEUE_MINUTES PRE_QUEUE_BATCH) := by
  have hperm := List.perm_insertionSort byScheduledAt
    (db.scheduled_messages.filter
      (fun x => x.status == SCHEDULED_MESSAGE_STATUS.PENDING
        && decide (x.scheduled_at ≤ now + 15 * 60 * 1000)))
  have hsort := List.sorted_insertionSort byScheduledAt
    (db.scheduled_messages.filter
      (fun x => x.status == SCHEDULED_MESSAGE_STATUS.PENDING
        && decide (x.scheduled_at ≤ now + 15 * 60 * 1000)))
  have hdef : getMessagesReadyForQueue db now PRE_QUEUE_MINUTES PRE_QUEUE_BATCH =
      ((db.scheduled_messages.filter
        (fun x => x.status == SCHEDULED_MESSAGE_STATUS.PENDING
          && decide (x.scheduled_at ≤ now + 15 * 60 * 1000))).insertionSort
            byScheduledAt).take 2000 := rfl
  have hcomplete :
      db.scheduled_messages.countP
        (fun x => x.status == SCHEDULED_MESSAGE_STATUS.PENDING
          && decide (x.scheduled_at ≤ now + 15 * 60 * 1000)) ≤ 2000 →
      ∀ r ∈ db.scheduled_messages,
        r.status = SCHEDULED_MESSAGE_STATUS.PENDING →
        r.scheduled_at ≤ now + 15 * 60 * 1000 →
        r ∈ getMessagesReadyForQueue db now PRE_QUEUE_MINUTES PRE_QUEUE_BATCH := by
    intro hcount r hr hst hsch
    rw [hdef]
    have hlen : ((db.scheduled_messages.filter
        (fun x => x.status == SCHEDULED_MESSAGE_STATUS.PENDING
          && decide (x.scheduled_at ≤ now + 15 * 60 * 1000))).insertionSort
            byScheduledAt).length ≤ 2000 := by
      rw [hperm.length_eq, ← List.countP_eq_length_filter]
      exact hcount
    rw [List.take_of_length_le hlen, hperm.mem_iff, List.mem_filter]
    refine ⟨hr, ?_⟩
    simp [hst, hsch]
  refine ⟨?_, ?_, ?_, hcomplete, ?_⟩
  · intro r hrmem
    rw [hdef] at hrmem
    have h1 := hperm.mem_iff.mp (List.mem_of_mem_take hrmem)
    have h2 := List.mem_filter.mp h1
    refine ⟨h2.1, ?_, ?_⟩
    · have := h2.2
      simp only [Bool.and_eq_true, beq_iff_eq, decide_eq_true_eq] at this
      exact this.1
    · have := h2.2
      simp only [Bool.and_eq_true, beq_iff_eq, decide_eq_true_eq] at this
      exact this.2
  · rw [hdef]
    exact List.Pairwise.sublist (List.take_sublist _ _) hsort
  · rw [hdef, List.length_take]
    exact min_le_left _ _
  · intro hcount r hr hst hsch
    exact hcomplete hcount r hr hst (by rw [hsch]; exact Nat.le_add_right _ _)

/-- Witness for C4 at a concrete input: with `now = 1000` the Pending row
scheduled exactly at 1000 is returned by the selection. -/
theorem getMessagesReady_correct_witness :
    sched1 ∈ getMessagesReadyForQueue baseDb 1000 PRE_QUEUE_MINUTES PRE_QUEUE_BATCH := by
  exact (getMessagesReady_correct baseDb 1000).2.2.2.2 (by decide) sched1
    (by decide) (by decide) (by decide)

/-! ### C3: the pre-queue publish/mark cycle -/

/-- Membership in the collected list of successfully published ids. -/
theorem contains_collected (messages : List ScheduledRow)
    (publishOk : ScheduledRow → Bool) (i : Nat) :
    ((messages.filter publishOk).map (fun m => m.id)).contains i = true ↔
      ∃ m, m ∈ messages ∧ publishOk m = true ∧ m.id = i := by
  rw [List.elem_iff]
  simp only [List.mem_map, List.mem_filter]
  constructor
  · rintro ⟨m, ⟨hm, hp⟩, hid⟩
    exact ⟨m, hm, hp, hid⟩
  · rintro ⟨m, hm, hp, hid⟩
    exact ⟨m, ⟨hm, hp⟩, hid⟩

/-- C3: in one pre-queue cycle, a scheduled row is rewritten exactly when
its broker publish returned `true` and it is still `Pending` — in which case
it becomes `Queued` with `queued_at = now`; a row whose publish returned
`false` (its id is not collected) is untouched, and so is a row that is no
longer `Pending` (e.g. cancelled in parallel), whatever its publish said. -/
theorem preQueue_gated_update (messages : List ScheduledRow)
    (publishOk : ScheduledRow → Bool) (db : Db) (now : Nat) :
    List.Forall₂
      (fun r r' =>
        ((¬ ∃ m, m ∈ messages ∧ publishOk m = true ∧ m.id = r.id) → r' = r) ∧
        (r.status ≠ SCHEDULED_MESSAGE_STATUS.PENDING → r' = r) ∧
        ((∃ m, m ∈ messages ∧ publishOk m = true ∧ m.id = r.id) →
          r.status = SCHEDULED_MESSAGE_STATUS.PENDING →
          r'.status = SCHEDULED_MESSAGE_STATUS.QUEUED ∧ r'.queued_at = some now ∧
          r'.id = r.id ∧ r'.scheduled_at = r.scheduled_at))
      db.scheduled_messages
      (pushMessagesToQueue messages publishOk true db now).1.scheduled_messages := by
  by_cases hm : messages.isEmpty
  · have hnone : ∀ r : ScheduledRow, ¬ ∃ m, m ∈ messages ∧ publishOk m = true ∧ m.id = r.id := by
      rintro r ⟨m, hmem, -, -⟩
      rw [List.isEmpty_iff] at hm
      simp [hm] at hmem
    simp only [pushMessagesToQueue, hm, if_pos]
    exact List.forall₂_same.mpr fun r _ =>
      ⟨fun _ => rfl, fun _ => rfl, fun hex _ => absurd hex (hnone r)⟩
  · by_cases hq : ((messages.filter publishOk).map (fun m => m.id)).isEmpty
    · have hnone : ∀ r : ScheduledRow,
          ¬ ∃ m, m ∈ messages ∧ publishOk m = true ∧ m.id = r.id := by
        rintro r hex
        have := (contains_collected messages publishOk r.id).mpr hex
        rw [List.isEmpty_iff] at hq
        simp [hq] at this
      simp only [pushMessagesToQueue, hm, hq, if_neg, if_pos, Bool.not_true, if_false]
      exact List.forall₂_same.mpr fun r _ =>
        ⟨fun _ => rfl, fun _ => rfl, fun hex _ => absurd hex (hnone r)⟩
    · have hpush : (pushMessagesToQueue messages publishOk true db now).1.scheduled_messages =
          updateWhere
            (fun r => ((messages.filter publishOk).map (fun m => m.id)).contains r.id
              && r.status == SCHEDULED_MESSAGE_STATUS.PENDING)
            (fun r =>
              { r with
                  status := SCHEDULED_MESSAGE_STATUS.QUEUED
                  queued_at := some now
                  updated_at := now })
            db.scheduled_messages := by
        simp [pushMessagesToQueue, hm, hq, markMessagesAsQueued]
      rw [hpush]
      unfold updateWhere
      rw [List.forall₂_map_right_iff]
      apply List.forall₂_same.mpr
      intro r _
      by_cases hp : (((messages.filter publishOk).map (fun m => m.id)).contains r.id
          && r.status == SCHEDULED_MESSAGE_STATUS.PENDING) = true
      · have hparts := hp
        rw [Bool.and_eq_true] at hparts
        have hex := (contains_collected messages publishOk r.id).mp hparts.1
        have hpend : r.status = SCHEDULED_MESSAGE_STATUS.PENDING := by
          have := hparts.2
          rwa [beq_iff_eq] at this
        rw [if_pos hp]
        exact ⟨fun hne => absurd hex hne,
               fun hne => absurd hpend hne,
               fun _ _ => ⟨rfl, rfl, rfl, rfl⟩⟩
      · rw [if_neg hp]
        refine ⟨fun _ => rfl, fun _ => rfl, fun hex hpend => absurd ?_ hp⟩
        rw [Bool.and_eq_true]
        exact ⟨(contains_collected messages publishOk r.id).mpr hex, by rw [beq_iff_eq]; exact hpend⟩

/-- Witness for C3 at a concrete input: publishing the batch
`[sched1, sched2cancelled]` with a broker that accepts everything queues the
Pending row 1 (`queued_at = 777`) and leaves the cancelled row 2 untouched. -/
theorem preQueue_gated_update_witness :
    ∃ r1 r2 r3 rest,
      (pushMessagesToQueue [sched1, sched2cancelled] (fun _ => true) true baseDb
        777).1.scheduled_messages = r1 :: r2 :: r3 :: rest ∧
      r1.status = SCHEDULED_MESSAGE_STATUS.QUEUED ∧ r1.queued_at = some 777 ∧
      r2 = sched2cancelled := by
  have h := preQueue_gated_update [sched1, sched2cancelled] (fun _ => true) baseDb 777
  rw [show baseDb.scheduled_messages = [sched1, sched2cancelled, sched3opted] from rfl] at h
  generalize hOUT : (pushMessagesToQueue [sched1, sched2cancelled] (fun _ => true) true baseDb
      777).1.scheduled_messages = out at h ⊢
  rcases h with - | @⟨_, b1, _, _, ⟨h11, h12, h13⟩, htail⟩
  rcases htail with - | @⟨_, b2, _, _, ⟨h21, h22, h23⟩, htail2⟩
  rcases htail2 with - | @⟨_, b3, _, l4, ⟨h31, h32, h33⟩, -⟩
  refine ⟨b1, b2, b3, l4, rfl, ?_, ?_, ?_⟩
  · exact (h13 ⟨sched1, by decide, rfl, rfl⟩ (by decide)).1
  · exact (h13 ⟨sched1, by decide, rfl, rfl⟩ (by decide)).2.1
  · exact h22 (by decide)

/-! ### Shape lemmas for the dispatcher proofs -/

/-- A successful `deductCredits` found a credits row, appended exactly its
debit audit row, and touched no other table. -/
theorem deductCredits_ok_shape (userId : Nat) (amount : Int) (opts : DeductOpts)
    (db db1 : Db) (res : DeductResult)
    (h : deductCredits userId amount opts db = (db1, Except.ok res)) :
    ∃ c, findCredits db userId = some c ∧
      db1.credit_transactions = db.credit_transactions ++ [debitTx userId amount opts c] ∧
      db1.scheduled_messages = db.scheduled_messages ∧
      db1.drip_contact = db.drip_contact ∧
      db1.messages = db.messages ∧
      db1.contacts = db.contacts ∧
      db1.users = db.users ∧
      db1.nextMessageId = db.nextMessageId := by
  unfold deductCredits at h
  split at h
  · simp at h
  · split at h
    · simp at h
    · split at h
      · simp at h
      · rename_i credits hfind
        split at h
        · simp at h
        · rw [Prod.mk.injEq] at h
          obtain ⟨hdb, -⟩ := h
          exact ⟨credits, hfind, by rw [← hdb], by rw [← hdb], by rw [← hdb],
            by rw [← hdb], by rw [← hdb], by rw [← hdb], by rw [← hdb]⟩

theorem successOutcome_credit (msgData : DripPayload) (ctx : ProcCtx) (req : SendRequest)
    (tw : TwilioResult) (db1 : Db) :
    (successOutcome msgData ctx req tw db1).db.credit_transactions =
      db1.credit_transactions := by
  cases hj : jsTruthyNat msgData.dripContactId <;>
    simp [successOutcome, markMessageAsSent, updateDripContactIfPresent, hj]

theorem successOutcome_twilio (msgData : DripPayload) (ctx : ProcCtx) (req : SendRequest)
    (tw : TwilioResult) (db1 : Db) :
    (successOutcome msgData ctx req tw db1).twilio = some tw := rfl

theorem successOutcome_calls (msgData : DripPayload) (ctx : ProcCtx) (req : SendRequest)
    (tw : TwilioResult) (db1 : Db) :
    (successOutcome msgData ctx req tw db1).gatewayCalls = [req] := rfl

theorem markFailedWithDrip_credit (db : Db) (msgData : DripPayload) (errMsg : String)
    (now : Nat) (tw : Option TwilioResult) (calls : List SendRequest) :
    (markFailedWithDrip db msgData errMsg now tw calls).db.credit_transactions =
      db.credit_transactions := by
  cases hj : jsTruthyNat msgData.dripContactId <;>
    simp [markFailedWithDrip, markMessageAsFailed, updateDripContactIfPresent, hj]

theorem markFailedWithDrip_twilio (db : Db) (msgData : DripPayload) (errMsg : String)
    (now : Nat) (tw : Option TwilioResult) (calls : List SendRequest) :
    (markFailedWithDrip db msgData errMsg now tw calls).twilio = tw := rfl

theorem markFailedWithDrip_calls (db : Db) (msgData : DripPayload) (errMsg : String)
    (now : Nat) (tw : Option TwilioResult) (calls : List SendRequest) :
    (markFailedWithDrip db msgData errMsg now tw calls).gatewayCalls = calls := rfl

theorem markFailedWithDrip_scheduledStatus (db : Db) (msgData : DripPayload)
    (errMsg : String) (now : Nat) (tw : Option TwilioResult) (calls : List SendRequest) :
    scheduledStatus (markFailedWithDrip db msgData errMsg now tw calls).db
        msgData.scheduledMessageId =
      (scheduledStatus db msgData.scheduledMessageId).map
        (fun _ => SCHEDULED_MESSAGE_STATUS.FAILED) := by
  have h1 : (markFailedWithDrip db msgData errMsg now tw calls).db.scheduled_messages =
      (markMessageAsFailed db msgData.scheduledMessageId errMsg now).scheduled_messages := by
    cases hj : jsTruthyNat msgData.dripContactId <;>
      simp [markFailedWithDrip, updateDripContactIfPresent, hj]
  have h2 : scheduledStatus (markFailedWithDrip db msgData errMsg now tw calls).db
      msgData.scheduledMessageId =
      scheduledStatus (markMessageAsFailed db msgData.scheduledMessageId errMsg now)
        msgData.scheduledMessageId := by
    simp [scheduledStatus, h1]
  rw [h2, scheduledStatus_markFailed]

theorem markFailedWithDrip_dripStatus (db : Db) (msgData : DripPayload)
    (errMsg : String) (now : Nat) (tw : Option TwilioResult) (calls : List SendRequest)
    (dcid : Nat) (hj : jsTruthyNat msgData.dripContactId = some dcid) :
    dripStatus (markFailedWithDrip db msgData errMsg now tw calls).db dcid =
      (dripStatus db dcid).map (fun _ => 3) := by
  have h1 : (markMessageAsFailed db msgData.scheduledMessageId errMsg now).drip_contact
      = db.drip_contact := by simp [markMessageAsFailed]
  have h2 := dripStatus_updateIfPresent
    (markMessageAsFailed db msgData.scheduledMessageId errMsg now) dcid
    msgData.dripContactId
    (fun d =>
      { d with
          status := 3
          error_message := some errMsg
          updated_at := now })
    (fun d => rfl) (fun d => rfl) hj
  calc dripStatus (markFailedWithDrip db msgData errMsg now tw calls).db dcid
      = (dripStatus (markMessageAsFailed db msgData.scheduledMessageId errMsg now) dcid).map
          (fun _ => 3) := h2
    _ = (dripStatus db dcid).map (fun _ => 3) := by simp [dripStatus, h1]

/-! ### C6: invalid contact handling -/

/-- C6 counterexample: a delivery for an opted-out contact marks the
scheduled row Failed and never reaches the gateway, but the DripContact row
(id 42) keeps status 0 — it is NOT marked Failed (3) as the claim states. -/
theorem contactInvalid_counterexample :
    dripStatus (processMessage payload3 ctxOk baseDb).db 42 = some 0 ∧
    ¬ dripStatus (processMessage payload3 ctxOk baseDb).db 42 = some 3 ∧
    scheduledStatus (processMessage payload3 ctxOk baseDb).db 30 =
      some SCHEDULED_MESSAGE_STATUS.FAILED ∧
    (processMessage payload3 ctxOk baseDb).gatewayCalls = [] := by
  refine ⟨by decide, by decide, by decide, by decide⟩

/-- C6 (amended): for a payload whose contact is missing, deleted, opted
out, or blocked, the handler acks, the scheduled row is marked Failed with
the corresponding reason, no gateway call and no credit activity occur, and
the DripContact row is left unchanged (it is not marked Failed). -/
theorem processMessage_contactInvalid (msgData : DripPayload) (ctx : ProcCtx) (db : Db)
    (h : db.contacts.find? (fun c => c.id == msgData.contactId && c.deleted_at.isNone) = none
       ∨ ∃ c, db.contacts.find?
            (fun c2 => c2.id == msgData.contactId && c2.deleted_at.isNone) = some c
          ∧ (c.opted_out || c.is_block) = true) :
    (messageHandler (some msgData) ctx db).ack = true ∧
    ∃ out, (messageHandler (some msgData) ctx db).outcome = some out ∧
      out.gatewayCalls = [] ∧
      out.twilio = none ∧
      out.db.user_credits = db.user_credits ∧
      out.db.credit_transactions = db.credit_transactions ∧
      out.db.drip_contact = db.drip_contact ∧
      out.db.messages = db.messages ∧
      scheduledStatus out.db msgData.scheduledMessageId =
        (scheduledStatus db msgData.scheduledMessageId).map
          (fun _ => SCHEDULED_MESSAGE_STATUS.FAILED) ∧
      ∃ reason,
        (reason = "Contact not found or deleted" ∨ reason = "Contact opted out or blocked") ∧
        scheduledError out.db msgData.scheduledMessageId =
          (scheduledError db msgData.scheduledMessageId).map (fun _ => some reason) := by
  rcases h with hnone | ⟨c, hsome, hflag⟩
  · have hP : processMessage msgData ctx db =
        markFailedOutcome db msgData "Contact not found or deleted" "Contact not found"
          ctx.now := by
      unfold processMessage
      rw [hnone]
    refine ⟨rfl, processMessage msgData ctx db, rfl, ?_, ?_, ?_, ?_, ?_, ?_, ?_, ?_⟩
    · rw [hP]; rfl
    · rw [hP]; rfl
    · rw [hP]; rfl
    · rw [hP]; rfl
    · rw [hP]; rfl
    · rw [hP]; rfl
    · rw [hP]
      exact scheduledStatus_markFailed db msgData.scheduledMessageId _ ctx.now
    · refine ⟨"Contact not found or deleted", Or.inl rfl, ?_⟩
      rw [hP]
      exact scheduledError_markFailed db msgData.scheduledMessageId _ ctx.now
  · have hP : processMessage msgData ctx db =
        markFailedOutcome db msgData "Contact opted out or blocked" "Contact opted out"
          ctx.now := by
      unfold processMessage
      rw [hsome]
      simp only [hflag, if_true]
    refine ⟨rfl, processMessage msgData ctx db, rfl, ?_, ?_, ?_, ?_, ?_, ?_, ?_, ?_⟩
    · rw [hP]; rfl
    · rw [hP]; rfl
    · rw [hP]; rfl
    · rw [hP]; rfl
    · rw [hP]; rfl
    · rw [hP]; rfl
    · rw [hP]
      exact scheduledStatus_markFailed db msgData.scheduledMessageId _ ctx.now
    · refine ⟨"Contact opted out or blocked", Or.inr rfl, ?_⟩
      rw [hP]
      exact scheduledError_markFailed db msgData.scheduledMessageId _ ctx.now

/-- Witness for the amended C6 at a concrete input: the opted-out contact
payload is acked and leaves the drip_contact table untouched. -/
theorem processMessage_contactInvalid_witness :
    (messageHandler (some payload3) ctxOk baseDb).ack = true ∧
    ∃ out, (messageHandler (some payload3) ctxOk baseDb).outcome = some out ∧
      out.db.drip_contact = baseDb.drip_contact := by
  obtain ⟨hack, out, h1, h2, h3, h4, h5, h6, h7, h8, h9⟩ :=
    processMessage_contactInvalid payload3 ctxOk baseDb
      (Or.inr ⟨contact4opted, rfl, rfl⟩)
  exact ⟨hack, out, h1, h6⟩

/-! ### C2: debit and (missing) refund around the gateway call -/

/-- C2 counterexample: a drip send whose gateway call fails leaves exactly
one debit transaction and ZERO refund (credit-type) transactions; the
balance stays reduced.  The claim that a matching refund is recorded is
false. -/
theorem gatewayFailure_no_refund_counterexample :
    (processMessage payload1 ctxFail baseDb).gatewayCalls.length = 1 ∧
    ((processMessage payload1 ctxFail baseDb).twilio.map (fun t => t.success)) = some false ∧
    ((processMessage payload1 ctxFail baseDb).db.credit_transactions.filter
      (fun t => t.type == "debit")).length = 1 ∧
    ((processMessage payload1 ctxFail baseDb).db.credit_transactions.filter
      (fun t => t.type == "credit")).length = 0 ∧
    creditBalance (processMessage payload1 ctxFail baseDb).db 7 = some 4 ∧
    creditBalance baseDb 7 = some 5 := by
  refine ⟨by decide, by decide, by decide, by decide, by decide, by decide⟩

/-- C2 (amended): every drip delivery that reaches the gateway records
exactly one debit — the audit row referencing `drip_sms`/the drip id — and
records no refund whatsoever; when the gateway reports failure the
dispatcher only marks the scheduled row Failed and the DripContact Failed,
leaving the debit in place. -/
theorem processMessage_debit_no_refund (msgData : DripPayload) (ctx : ProcCtx) (db : Db)
    (h : (processMessage msgData ctx db).gatewayCalls ≠ []) :
    (∃ c, findCredits db msgData.userId = some c ∧
      (processMessage msgData ctx db).db.credit_transactions =
        db.credit_transactions ++
          [debitTx msgData.userId SMS_CREDIT_COST
            { description := "Drip SMS sent to " ++ msgData.toNumber
              referenceType := some "drip_sms"
              referenceId := jsTruthyNat msgData.dripId } c]) ∧
    ((processMessage msgData ctx db).db.credit_transactions.filter
        (fun t => t.type == "credit") =
      db.credit_transactions.filter (fun t => t.type == "credit")) ∧
    ((processMessage msgData ctx db).twilio.map (fun t => t.success) = some false →
      scheduledStatus (processMessage msgData ctx db).db msgData.scheduledMessageId =
        (scheduledStatus db msgData.scheduledMessageId).map
          (fun _ => SCHEDULED_MESSAGE_STATUS.FAILED) ∧
      ∀ dcid, jsTruthyNat msgData.dripContactId = some dcid →
        dripStatus (processMessage msgData ctx db).db dcid =
          (dripStatus db dcid).map (fun _ => 3)) := by
  cases hc : db.contacts.find? (fun c => c.id == msgData.contactId && c.deleted_at.isNone) with
  | none =>
    exact absurd (by simp [processMessage, hc, markFailedOutcome]) h
  | some contact =>
    by_cases hopt : (contact.opted_out || contact.is_block) = true
    · exact absurd (by simp [processMessage, hc, hopt, markFailedOutcome]) h
    · cases hu : db.users.find? (fun u => u.id == msgData.userId) with
      | none =>
        exact absurd (by simp [processMessage, hc, hopt, hu, markFailedOutcome]) h
      | some user =>
        by_cases hms : (user.messaging_status != 1) = true
        · exact absurd (by simp [processMessage, hc, hopt, hu, hms, markFailedOutcome]) h
        · by_cases hcr : (!(hasEnoughCredits db msgData.userId SMS_CREDIT_COST)) = true
          · exact absurd
              (by simp [processMessage, hc, hopt, hu, hms, hcr, markFailedWithDrip]) h
          · cases hded : deductCredits msgData.userId SMS_CREDIT_COST
              { description := "Drip SMS sent to " ++ msgData.toNumber
                referenceType := some "drip_sms"
                referenceId := jsTruthyNat msgData.dripId } db with
            | mk db1 r =>
              cases r with
              | error e =>
                exact absurd
                  (by simp [processMessage, hc, hopt, hu, hms, hcr, hded, markFailedWithDrip]) h
              | ok res =>
                have hP : processMessage msgData ctx db = sendAndRecord msgData ctx user db1 := by
                  simp [processMessage, hc, hopt, hu, hms, hcr, hded]
                obtain ⟨c, hcfind, htx, hsched, hdrip, hmsgs, hcontacts, husers, hnext⟩ :=
                  deductCredits_ok_shape _ _ _ _ _ _ hded
                rw [hP]
                by_cases htw : (ctx.gw (dripSendRequest msgData ctx user)).success = true
                · have hSR : sendAndRecord msgData ctx user db1 =
                      successOutcome msgData ctx (dripSendRequest msgData ctx user)
                        (ctx.gw (dripSendRequest msgData ctx user)) db1 := by
                    simp [sendAndRecord, htw]
                  rw [hSR]
                  refine ⟨⟨c, hcfind, ?_⟩, ?_, ?_⟩
                  · rw [successOutcome_credit, htx]
                  · rw [successOutcome_credit, htx, List.filter_append]
                    simp [debitTx]
                  · intro hfalse
                    rw [successOutcome_twilio] at hfalse
                    simp [htw] at hfalse
                · have hSR : sendAndRecord msgData ctx user db1 =
                      markFailedWithDrip db1 msgData
                        (jsOrStr (ctx.gw (dripSendRequest msgData ctx user)).errorMessage
                          "Twilio send failed")
                        ctx.now (some (ctx.gw (dripSendRequest msgData ctx user)))
                        [dripSendRequest msgData ctx user] := by
                    simp [sendAndRecord, htw]
                  rw [hSR]
                  refine ⟨⟨c, hcfind, ?_⟩, ?_, ?_⟩
                  · rw [markFailedWithDrip_credit, htx]
                  · rw [markFailedWithDrip_credit, htx, List.filter_append]
                    simp [debitTx]
                  · intro _
                    constructor
                    · rw [markFailedWithDrip_scheduledStatus]
                      have hss : scheduledStatus db1 msgData.scheduledMessageId =
                          scheduledStatus db msgData.scheduledMessageId := by
                        simp [scheduledStatus, hsched]
                      rw [hss]
                    · intro dcid hj
                      rw [markFailedWithDrip_dripStatus _ _ _ _ _ _ _ hj]
                      have hds : dripStatus db1 dcid = dripStatus db dcid := by
                        simp [dripStatus, hdrip]
                      rw [hds]

/-- Witness for the amended C2 at a concrete input: the failing-gateway run
reaches the gateway and appends exactly the debit audit row to the ledger. -/
theorem processMessage_debit_no_refund_witness :
    ∃ c, findCredits baseDb payload1.userId = some c ∧
      (processMessage payload1 ctxFail baseDb).db.credit_transactions =
        baseDb.credit_transactions ++
          [debitTx payload1.userId SMS_CREDIT_COST
            { description := "Drip SMS sent to " ++ payload1.toNumber
              referenceType := some "drip_sms"
              referenceId := jsTruthyNat payload1.dripId } c] := by
  exact (processMessage_debit_no_refund payload1 ctxFail baseDb (by decide)).1

/-! ### C1: no idempotency check in the drip dispatcher -/

/-- C1 evaluation: after a first successful delivery the new `messages` row
carries `msg_id = "SM1"`; re-delivering the very same payload calls the
gateway again, deducts another credit (balance 5 → 4 → 3) and inserts a
second messages row — the drip dispatcher performs no duplicate check. -/
theorem dripRedelivery_double_send :
    ((processMessage payload1 ctxOk baseDb).db.messages.map (fun m => m.msg_id)
      = [some "SM1"]) ∧
    creditBalance (processMessage payload1 ctxOk baseDb).db 7 = some 4 ∧
    ((processMessage payload1 ctxOk2 (processMessage payload1 ctxOk baseDb).db).gatewayCalls.length
      = 1) ∧
    creditBalance
      (processMessage payload1 ctxOk2 (processMessage payload1 ctxOk baseDb).db).db 7
      = some 3 ∧
    ((processMessage payload1 ctxOk2
        (processMessage payload1 ctxOk baseDb).db).db.messages.length = 2) := by
  refine ⟨by decide, by decide, by decide, by decide, by decide⟩

/-! ### C9: the delivery reconciler and unknown provider statuses -/

/-- C9 evaluation: a provider status outside the table ("canceled") does
NOT update the textual `delivery_status` — the fallback binds the
unselected `status` column as `undefined`, knex throws while compiling the
UPDATE, and the handler reports failure with the row entirely unchanged.
A mapped status ("delivered") updates both columns per the table. -/
theorem unknownStatus_update_fails :
    (updateDeliveryStatus dbMsg (some "DM-1") "canceled" (some "SM9") 5000).2.success
      = false ∧
    (updateDeliveryStatus dbMsg (some "DM-1") "canceled" (some "SM9") 5000).1 = dbMsg ∧
    ((updateDeliveryStatus dbMsg (some "DM-1") "canceled" (some "SM9") 5000).1.messages.map
      (fun m => m.delivery_status)) = ["sent"] ∧
    ((updateDeliveryStatus dbMsg (some "DM-1") "delivered" (some "SM9") 5000).1.messages.map
      (fun m => (m.status, m.delivery_status))) = [("2", "delivered")] := by
  refine ⟨by decide, by decide, by decide, by decide⟩

/-! ### C8: the broker retry wrapper -/

/-- C8 counterexample: a message published without an `x-retry-count`
header whose handler always fails is still in the queue after 3 failed
attempts — it has not reached the dead-letter exchange as the claim
states. -/
theorem headerlessRetry_counterexample :
    afterFailedAttempts { retryHeader := none } 3 =
      MsgLoc.queue { retryHeader := none } ∧
    ¬ afterFailedAttempts { retryHeader := none } 3 =
      MsgLoc.dlx { retryHeader := none } := by
  refine ⟨by decide, by decide⟩

/-- C8 (amended): per delivery the wrapper dead-letters exactly when the
incremented header count reaches 3; but since a requeue leaves the message
headers unchanged, a message published without the header is requeued on
every failure and never dead-letters, for any number of attempts. -/
theorem consumeRetry_mechanism :
    (∀ m : BrokerMsg, consumeOnError m = NackDecision.deadLetter ↔
      3 ≤ (match m.retryHeader with | some n => n | none => 0) + 1) ∧
    (∀ n : Nat, afterFailedAttempts { retryHeader := none } n =
      MsgLoc.queue { retryHeader := none }) := by
  constructor
  · intro m
    obtain ⟨h⟩ := m
    cases h with
    | none => decide
    | some n =>
      by_cases hn : 3 ≤ n + 1
      · simp [consumeOnError, hn]
      · simp [consumeOnError, hn]
  · intro n
    induction n with
    | zero => rfl
    | succ k ih =>
      unfold afterFailedAttempts at ih ⊢
      rw [Function.iterate_succ_apply', ih]
      rfl

/-! ### C7: the token-bucket rate limiter under concurrency -/

set_option maxHeartbeats 4000000 in
/-- C7 evaluation: 12 concurrent `acquire()` calls at time 0 against a
bucket with burst 10 and refill 5/s all complete within the window
[0 ms, 200 ms]: 10 immediately and 2 more when their timers fire at 200 ms,
both decrementing without re-checking availability (tokens end at −1).
That is 12 completions in a window of T = 0.2 s although the claimed bound
is burst + rate·T = 10 + 5·0.2 = 11. -/
theorem rateLimiter_concurrent_burst_exceeds_bound :
    ((simulateBurst 12
        { maxTokens := 10, refillRate := 5, tokens := 10, lastRefill := 0 }).2 =
      [0, 0, 0, 0, 0, 0, 0, 0, 0, 0, 200, 200]) ∧
    ((simulateBurst 12
        { maxTokens := 10, refillRate := 5, tokens := 10, lastRefill := 0 }).2.length = 12) ∧
    ((simulateBurst 12
        { maxTokens := 10, refillRate := 5, tokens := 10, lastRefill := 0 }).1.tokens = -1) ∧
    ¬ ((12 : ℚ) ≤ 10 + 5 * (200 / 1000)) := by
  have hsim : simulateBurst 12
      { maxTokens := 10, refillRate := 5, tokens := 10, lastRefill := 0 } =
      ({ maxTokens := 10, refillRate := 5, tokens := -1, lastRefill := 200 },
        [0, 0, 0, 0, 0, 0, 0, 0, 0, 0, 200, 200]) := by
    norm_num [simulateBurst, startCalls, fireAll, RateLimiter.acquireStart,
      RateLimiter.tryAcquire, RateLimiter.refill, RateLimiter.timerFire]
  refine ⟨by rw [hsim], by rw [hsim]; rfl, by rw [hsim], by norm_num⟩

end Sengine
